import Mathlib

/-!
Shallow embedding of the EV price estimator backend (`src/backend/app.py`).

The embedding covers the two core components:

* the reference catalog builder `_load_dataset` (canonical schema,
  transactional schema with median aggregation, and the built-in fallback
  catalog), modelled over an abstract raw table (a list of rows, each an
  association list from column name to cell value) — the file-reading part
  (`read_csv` / `read_excel`) is transport and is not part of the core;
* the valuation engine `/valuation` (`_years_since`, `_clamp`, depreciation,
  clamping, confidence, rounding).

Numbers: Python floats are idealised as exact arithmetic (ℚ for the catalog
and date computations, ℝ for the depreciation pipeline, which uses a real
power `0.93 ** years` with a fractional exponent).  `round(x, 2)` is
idealised as exact round-half-to-even at two decimals.

Dates: `datetime.fromisoformat(s[:10])` is modelled by a character-level
parser for the `YYYY-MM-DD` form (with month/day/leap-year validity, year
at least 1), the only form relevant here; any other input fails to parse,
as in the source.  `datetime.utcnow()` is passed in explicitly as the
evaluation instant, making the functions deterministic at a fixed instant.

The uncaught `ValueError` that `datetime.fromisoformat` can raise on the
`year_gap` line of `valuation` is modelled by returning `none`; every
normally returned response is `some`.
-/

/-- ASCII whitespace, as stripped by Python `str.strip()` on the inputs in scope. -/
def isSpaceChar (c : Char) : Bool := c == ' ' || c == '\t' || c == '\n' || c == '\r'

/-- ASCII lower-casing of one character (Python `str.lower()` on ASCII data). -/
def lowerChar (c : Char) : Char :=
  if 'A' ≤ c ∧ c ≤ 'Z' then Char.ofNat (c.toNat + 32) else c

/-- `strip()` then `lower()` on the character list of a string. -/
def normChars (l : List Char) : List Char :=
  (((l.dropWhile isSpaceChar).reverse.dropWhile isSpaceChar).reverse).map lowerChar

/-- Python `s.strip().lower()`, the normalization applied to make/model values
and to column names throughout the backend. -/
def normStr (s : String) : String := ⟨normChars s.data⟩

/-- A calendar date, the part of a Python `datetime` the core reads
(`.year` and `.month`; the day is parsed but never used). -/
structure SimpleDate where
  year : ℕ
  month : ℕ
  day : ℕ
deriving DecidableEq

/-- Gregorian leap year, for day-of-month validity in `fromisoformat`. -/
def isLeap (y : ℕ) : Bool := (y % 4 == 0 && y % 100 != 0) || (y % 400 == 0)

/-- Number of days of month `m` in year `y`. -/
def daysInMonth (y m : ℕ) : ℕ :=
  if m = 2 then (if isLeap y then 29 else 28)
  else if m = 4 ∨ m = 6 ∨ m = 9 ∨ m = 11 then 30 else 31

/-- Value of a decimal digit character, `none` on a non-digit. -/
def digitVal (c : Char) : Option ℕ :=
  if c.isDigit then some (c.toNat - '0'.toNat) else none

/-- Parse a 10-character `YYYY-MM-DD` list, validating month, day and year
range as `datetime.fromisoformat` does; anything else fails. -/
def parseDateChars (l : List Char) : Option SimpleDate :=
  match l with
  | [c1, c2, c3, c4, s1, c5, c6, s2, c7, c8] =>
    match digitVal c1, digitVal c2, digitVal c3, digitVal c4,
          digitVal c5, digitVal c6, digitVal c7, digitVal c8 with
    | some a, some b, some c, some d, some e, some f, some g, some h =>
      if s1 = '-' ∧ s2 = '-' then
        let y := ((a * 10 + b) * 10 + c) * 10 + d
        let mo := e * 10 + f
        let da := g * 10 + h
        if 1 ≤ y ∧ 1 ≤ mo ∧ mo ≤ 12 ∧ 1 ≤ da ∧ da ≤ daysInMonth y mo then
          some ⟨y, mo, da⟩
        else none
      else none
    | _, _, _, _, _, _, _, _ => none
  | _ => none

/-- `datetime.fromisoformat(s[:10])`: parse the first 10 characters of `s`. -/
def parseISO (s : String) : Option SimpleDate := parseDateChars (s.data.take 10)

/-- `_years_since`: whole months between the parsed registration date and the
evaluation instant, divided by 12 and floored at 0; `0` if parsing fails. -/
def yearsSince (now : SimpleDate) (s : String) : ℚ :=
  match parseISO s with
  | none => 0
  | some d =>
    let months : ℤ := ((now.year : ℤ) - (d.year : ℤ)) * 12 + ((now.month : ℤ) - (d.month : ℤ))
    max 0 ((months : ℚ) / 12)

/-- A raw table cell: CSV/Excel data is either text or a number. -/
inductive Cell where
  | str (s : String)
  | num (q : ℚ)
deriving DecidableEq

/-- Python `str(x)` on a cell (`astype(str)` stringifies numeric cells). -/
def Cell.asString : Cell → String
  | .str s => s
  | .num q => toString q

/-- One raw row: an association list from column name to cell value. -/
abbrev RawRow := List (String × Cell)

/-- A raw tabular input (the in-memory view of the CSV/Excel file). -/
structure RawTable where
  cols : List String
  rows : List RawRow
deriving DecidableEq

/-- Look up a cell of a row by column name (first occurrence wins). -/
def getCell (r : RawRow) (c : String) : Option Cell := r.lookup c

/-- Read a cell as a string (`astype(str)` semantics); empty on a missing
column, which cannot occur for the rectangular frames pandas produces. -/
def getStr (r : RawRow) (c : String) : String :=
  match getCell r c with
  | some v => v.asString
  | none => ""

/-- Read a cell as a number; `0` stands in for the missing/non-numeric case,
which cannot occur for the rectangular numeric columns in scope. -/
def getNum (r : RawRow) (c : String) : ℚ :=
  match getCell r c with
  | some (.num q) => q
  | _ => 0

/-- `df.columns = [c.strip().lower() for c in df.columns]`: normalize all
column names of the table. -/
def normTable (t : RawTable) : RawTable :=
  { cols := t.cols.map normStr,
    rows := t.rows.map (fun r => r.map (fun p => (normStr p.1, p.2))) }

/-- Insert a rational into a sorted list (ascending). -/
def insertSorted (a : ℚ) : List ℚ → List ℚ
  | [] => [a]
  | b :: l => if a ≤ b then a :: b :: l else b :: insertSorted a l

/-- Ascending insertion sort on rationals. -/
def sortQ : List ℚ → List ℚ
  | [] => []
  | a :: l => insertSorted a (sortQ l)

/-- pandas `median`: middle element of the sorted values, or the mean of the
two middle elements for an even count (`0` on the empty list, a case that
never arises for a non-empty group). -/
def median (l : List ℚ) : ℚ :=
  let s := sortQ l
  let n := s.length
  if n % 2 = 1 then s.getD (n / 2) 0
  else (s.getD (n / 2 - 1) 0 + s.getD (n / 2) 0) / 2

/-- The canonical reference columns of `_load_dataset`. -/
def canonicalCols : List String := ["make", "model", "base_price", "year0"]

/-- The transactional columns of `_load_dataset`. -/
def transactionalCols : List String := ["make", "model", "price"]

/-- `set(cs).issubset(df.columns)`. -/
def hasCols (t : RawTable) (cs : List String) : Bool :=
  cs.all (fun c => t.cols.contains c)

/-- One row of the canonical catalog (`make, model, base_price, year0`).
`year0` is kept as parsed/aggregated (a median can be a half-integer);
the valuation engine truncates it with Python `int()`. -/
structure Archetype where
  make : String
  model : String
  base_price : ℚ
  year0 : ℚ
deriving DecidableEq

/-- Normalized `(make, model)` grouping key of a transactional row
(`astype(str).str.strip().str.lower()`). -/
def rowKey (r : RawRow) : String × String :=
  (normStr (getStr r "make"), normStr (getStr r "model"))

/-- Character-list lexicographic comparison (ascending), used to model the
sorted group keys that pandas `groupby` produces. -/
def charsLe : List Char → List Char → Bool
  | [], _ => true
  | _ :: _, [] => false
  | a :: as2, b :: bs =>
    if a < b then true
    else if b < a then false
    else charsLe as2 bs

/-- Lexicographic comparison of `(make, model)` keys. -/
def keyLe (a b : String × String) : Bool :=
  if a.1.data = b.1.data then charsLe a.2.data b.2.data
  else charsLe a.1.data b.1.data

/-- Insert a key into a sorted key list (ascending, lexicographic). -/
def insertKey (a : String × String) : List (String × String) → List (String × String)
  | [] => [a]
  | b :: l => if keyLe a b then a :: b :: l else b :: insertKey a l

/-- Insertion sort of grouping keys. -/
def sortKeys : List (String × String) → List (String × String)
  | [] => []
  | a :: l => insertKey a (sortKeys l)

/-- The rows of the normalized table belonging to one `(make, model)` group. -/
def groupRows (t : RawTable) (k : String × String) : List RawRow :=
  t.rows.filter (fun r => rowKey r = k)

/-- The aggregated catalog row of one group: `base_price` is the median of
the group's `price` values; `year0` is the median of its `registration_year`
values when that column exists, otherwise the constant fallback `2020`. -/
def aggRow (t : RawTable) (k : String × String) : Archetype :=
  { make := k.1, model := k.2,
    base_price := median ((groupRows t k).map (fun r => getNum r "price")),
    year0 := if t.cols.contains "registration_year" then
               median ((groupRows t k).map (fun r => getNum r "registration_year"))
             else 2020 }

/-- The hard-coded catalog synthesized "as a last resort, to avoid crashing". -/
def fallbackCatalog : List Archetype :=
  [⟨"tesla", "model 3", 28000, 2019⟩,
   ⟨"tesla", "model y", 35000, 2021⟩,
   ⟨"nissan", "leaf", 12000, 2018⟩,
   ⟨"volkswagen", "id.3", 20000, 2020⟩,
   ⟨"volkswagen", "id.4", 26000, 2021⟩]

/-- `_load_dataset`, from the raw table onward: normalize column names, then
try the canonical schema, then the transactional schema (group by normalized
`(make, model)`, aggregate medians, sorted group keys), else fall back to the
built-in catalog.  A total function: no input makes it fail. -/
def loadDataset (t0 : RawTable) : List Archetype :=
  let t := normTable t0
  if hasCols t canonicalCols then
    t.rows.map (fun r =>
      { make := normStr (getStr r "make"), model := normStr (getStr r "model"),
        base_price := getNum r "base_price", year0 := getNum r "year0" })
  else if hasCols t transactionalCols then
    (sortKeys ((t.rows.map rowKey).dedup)).map (aggRow t)
  else
    fallbackCatalog

/-- `ANNUAL_DEPRECIATION = 0.07`. -/
def ANNUAL_DEPRECIATION : ℝ := 0.07

/-- `PER_10K_DEPRECIATION = 0.015`. -/
def PER_10K_DEPRECIATION : ℝ := 0.015

/-- `MILEAGE_BUCKET = 10000`. -/
def MILEAGE_BUCKET : ℝ := 10000

/-- `MIN_RETENTION = 0.35`. -/
def MIN_RETENTION : ℝ := 0.35

/-- `_clamp(v, lo, hi) = max(lo, min(hi, v))`. -/
noncomputable def clamp (v lo hi : ℝ) : ℝ := max lo (min hi v)

/-- Round a real to the nearest integer, ties to even (Python `round`). -/
noncomputable def roundHalfEven (x : ℝ) : ℤ :=
  if x - ⌊x⌋ < 1/2 then ⌊x⌋
  else if (1 : ℝ)/2 < x - ⌊x⌋ then ⌊x⌋ + 1
  else if Even ⌊x⌋ then ⌊x⌋ else ⌊x⌋ + 1

/-- Python `round(x, 2)`, idealised over exact reals. -/
noncomputable def round2 (x : ℝ) : ℝ := (roundHalfEven (x * 100) : ℝ) / 100

/-- Python `int()` on a rational: truncation toward zero. -/
def ratTrunc (q : ℚ) : ℤ := if 0 ≤ q then ⌊q⌋ else ⌈q⌉

/-- `year_factor = (1 - ANNUAL_DEPRECIATION) ** years` (a real power, since
`years` is in whole months over 12). -/
noncomputable def yearFactor (years : ℚ) : ℝ :=
  (1 - ANNUAL_DEPRECIATION) ^ ((years : ℝ))

/-- `mileage_factor = 1 - PER_10K_DEPRECIATION * (mileage / MILEAGE_BUCKET)`. -/
noncomputable def mileageFactor (m : ℕ) : ℝ :=
  1 - PER_10K_DEPRECIATION * ((m : ℝ) / MILEAGE_BUCKET)

/-- `raw = base_price * year_factor * mileage_factor`. -/
noncomputable def rawEstimate (bp : ℝ) (years : ℚ) (m : ℕ) : ℝ :=
  bp * yearFactor years * mileageFactor m

/-- `estimate = _clamp(raw, min_value * 0.8, base_price * 1.05)` with
`min_value = base_price * MIN_RETENTION` (the pre-rounding estimate). -/
noncomputable def estimateOf (bp : ℝ) (years : ℚ) (m : ℕ) : ℝ :=
  clamp (rawEstimate bp years m) (bp * MIN_RETENTION * 0.8) (bp * 1.05)

/-- `confidence = _clamp(0.9 - year_gap * 0.06 - min(0.5, mileage / 200000), 0.5, 0.9)`
(the pre-rounding confidence). -/
noncomputable def confidenceOf (gap : ℤ) (m : ℕ) : ℝ :=
  clamp (0.9 - (gap : ℝ) * 0.06 - min 0.5 ((m : ℝ) / 200000)) 0.5 0.9

/-- The `/valuation` request body, after the transport layer's type checks
(`mileageKm` a non-negative integer). -/
structure ValuationRequest where
  make : String
  model : String
  mileageKm : ℕ
  firstRegistration : String

/-- The `/valuation` response body (`currency` is the constant "EUR" label
and is omitted). -/
structure ValuationResponse where
  estimate : ℝ
  confidence : Option ℝ

/-- `REF_DATA[(REF_DATA["make"] == make) & (REF_DATA["model"] == model)]`
followed by `.iloc[0]`: the first catalog row matching the normalized key. -/
def findMatch (cat : List Archetype) (mk md : String) : Option Archetype :=
  cat.find? (fun a => a.make == mk && a.model == md)

/-- The `/valuation` handler.  `none` models the uncaught `ValueError` that
`datetime.fromisoformat(req.firstRegistration[:10])` raises on the
`year_gap` line when an archetype matched but the date does not parse;
every other path returns `some` response. -/
noncomputable def valuation (cat : List Archetype) (now : SimpleDate)
    (req : ValuationRequest) : Option ValuationResponse :=
  match findMatch cat (normStr req.make) (normStr req.model) with
  | none => some ⟨10000, some 0.5⟩
  | some a =>
    match parseISO req.firstRegistration with
    | none => none
    | some d =>
      some ⟨round2 (estimateOf ((a.base_price : ℝ)) (yearsSince now req.firstRegistration)
                      req.mileageKm),
            some (round2 (confidenceOf (|(d.year : ℤ) - ratTrunc a.year0|) req.mileageKm))⟩

/-- A small concrete transactional-schema table (columns `Make, model, price`,
no `registration_year`), used to exercise the aggregation path on data whose
column names and make values need normalization. -/
def sampleTransactional : RawTable :=
  ⟨["Make", "model", "price"],
   [[("Make", .str "A"), ("model", .str "x"), ("price", .num 10)],
    [("Make", .str " a "), ("model", .str "x"), ("price", .num 30)],
    [("Make", .str "a"), ("model", .str "x"), ("price", .num 20)]]⟩

/-! ## Helper lemmas -/

theorem roundHalfEven_cases (x : ℝ) :
    roundHalfEven x = ⌊x⌋ ∨ roundHalfEven x = ⌊x⌋ + 1 := by
  unfold roundHalfEven
  split_ifs <;> simp

theorem floor_le_roundHalfEven (x : ℝ) : ⌊x⌋ ≤ roundHalfEven x := by
  rcases roundHalfEven_cases x with h | h <;> omega

theorem sub_half_le_roundHalfEven (x : ℝ) : x - 1/2 ≤ (roundHalfEven x : ℝ) := by
  have hf := Int.floor_le x
  have hc := Int.lt_floor_add_one x
  unfold roundHalfEven
  split_ifs with h1 h2 h3 <;> push_cast <;> linarith

theorem roundHalfEven_le_add_half (x : ℝ) : (roundHalfEven x : ℝ) ≤ x + 1/2 := by
  have hf := Int.floor_le x
  have hc := Int.lt_floor_add_one x
  unfold roundHalfEven
  split_ifs with h1 h2 h3 <;> push_cast <;> linarith

theorem roundHalfEven_mono {x y : ℝ} (h : x ≤ y) :
    roundHalfEven x ≤ roundHalfEven y := by
  rcases lt_or_le ⌊x⌋ ⌊y⌋ with hf | hf
  · have h1 : roundHalfEven x ≤ ⌊x⌋ + 1 := by
      rcases roundHalfEven_cases x with hx | hx <;> omega
    have h2 : ⌊y⌋ ≤ roundHalfEven y := floor_le_roundHalfEven y
    omega
  · have hfe : ⌊x⌋ = ⌊y⌋ := le_antisymm (Int.floor_le_floor h) hf
    unfold roundHalfEven
    rw [hfe]
    split_ifs with a1 b1 a2 b2 b3 b4 b5 b6 <;> first | omega | (exfalso; linarith)

theorem roundHalfEven_intCast (n : ℤ) : roundHalfEven (n : ℝ) = n := by
  unfold roundHalfEven
  rw [Int.floor_intCast]
  simp

theorem round2_mono {x y : ℝ} (h : x ≤ y) : round2 x ≤ round2 y := by
  unfold round2
  have := roundHalfEven_mono (by linarith : x * 100 ≤ y * 100)
  have hc : ((roundHalfEven (x * 100) : ℤ) : ℝ) ≤ ((roundHalfEven (y * 100) : ℤ) : ℝ) := by
    exact_mod_cast this
  linarith

theorem sub_le_round2 (x : ℝ) : x - 1/200 ≤ round2 x := by
  unfold round2
  have := sub_half_le_roundHalfEven (x * 100)
  linarith

theorem round2_le_add (x : ℝ) : round2 x ≤ x + 1/200 := by
  unfold round2
  have := roundHalfEven_le_add_half (x * 100)
  linarith

theorem round2_nonneg {x : ℝ} (h : 0 ≤ x) : 0 ≤ round2 x := by
  unfold round2
  have h1 : (0 : ℤ) ≤ ⌊x * 100⌋ := Int.floor_nonneg.mpr (by linarith)
  have h2 := floor_le_roundHalfEven (x * 100)
  have hc : (0 : ℝ) ≤ ((roundHalfEven (x * 100) : ℤ) : ℝ) := by exact_mod_cast le_trans h1 h2
  linarith

theorem round2_eq_of_intCast {x : ℝ} {n : ℤ} (h : x * 100 = (n : ℝ)) :
    round2 x = (n : ℝ) / 100 := by
  unfold round2
  rw [h, roundHalfEven_intCast]

theorem le_clamp (v lo hi : ℝ) : lo ≤ clamp v lo hi := le_max_left _ _

theorem clamp_le_right {lo hi : ℝ} (v : ℝ) (h : lo ≤ hi) : clamp v lo hi ≤ hi :=
  max_le h (min_le_left _ _)

theorem clamp_mono_arg {v w : ℝ} (lo hi : ℝ) (h : v ≤ w) :
    clamp v lo hi ≤ clamp w lo hi :=
  max_le_max le_rfl (min_le_min le_rfl h)

theorem clamp_of_hi_lt_lo {v lo hi : ℝ} (h : hi < lo) : clamp v lo hi = lo :=
  max_eq_left ((min_le_left hi v).trans h.le)

theorem valuation_eval (cat : List Archetype) (now : SimpleDate) (req : ValuationRequest)
    (a : Archetype) (d : SimpleDate)
    (hm : findMatch cat (normStr req.make) (normStr req.model) = some a)
    (hp : parseISO req.firstRegistration = some d) :
    valuation cat now req =
      some ⟨round2 (estimateOf ((a.base_price : ℝ)) (yearsSince now req.firstRegistration)
              req.mileageKm),
            some (round2 (confidenceOf (|(d.year : ℤ) - ratTrunc a.year0|) req.mileageKm))⟩ := by
  unfold valuation
  rw [hm, hp]

theorem valuation_eval_noMatch (cat : List Archetype) (now : SimpleDate)
    (req : ValuationRequest)
    (hm : findMatch cat (normStr req.make) (normStr req.model) = none) :
    valuation cat now req = some ⟨10000, some 0.5⟩ := by
  unfold valuation
  rw [hm]

theorem valuation_some_of_match {cat : List Archetype} {now : SimpleDate}
    {req : ValuationRequest} {a : Archetype} {r : ValuationResponse}
    (hm : findMatch cat (normStr req.make) (normStr req.model) = some a)
    (hv : valuation cat now req = some r) :
    ∃ d, parseISO req.firstRegistration = some d ∧
      r = ⟨round2 (estimateOf ((a.base_price : ℝ)) (yearsSince now req.firstRegistration)
              req.mileageKm),
           some (round2 (confidenceOf (|(d.year : ℤ) - ratTrunc a.year0|) req.mileageKm))⟩ := by
  unfold valuation at hv
  rw [hm] at hv
  rcases hpe : parseISO req.firstRegistration with _ | d
  · rw [hpe] at hv
    cases hv
  · rw [hpe] at hv
    refine ⟨d, rfl, ?_⟩
    cases hv
    rfl

/-! ## Claims -/

/-- C6: for every `firstRegistration` string and evaluation instant, the
elapsed-time value equals `max(0, (nowYear − regYear) × 12 + (nowMonth −
regMonth)) / 12` when the first 10 characters parse as an ISO date (the
day-of-month plays no role in the value), and equals `0` when parsing
fails. -/
theorem C6_elapsed_time_formula (now : SimpleDate) (s : String) :
    yearsSince now s =
      match parseDateChars (s.data.take 10) with
      | some d =>
          ((max 0 (((now.year : ℤ) - (d.year : ℤ)) * 12 + ((now.month : ℤ) - (d.month : ℤ))) : ℤ) : ℚ) / 12
      | none => 0 := by
  unfold yearsSince parseISO
  rcases h : parseDateChars (s.data.take 10) with _ | d
  · simp
  · simp only []
    push_cast
    rw [← max_div_div_right (by norm_num : (0 : ℚ) ≤ 12), zero_div]

/-- C4: whenever the normalized `(make, model)` has no catalog row, the
response is exactly `estimate = 10000.0`, `confidence = 0.5`, and no error
is raised (the handler returns a value on this path). -/
theorem C4_no_match_default (cat : List Archetype) (now : SimpleDate)
    (req : ValuationRequest)
    (h : findMatch cat (normStr req.make) (normStr req.model) = none) :
    valuation cat now req = some ⟨10000, some 0.5⟩ := by
  unfold valuation
  rw [h]

/-- Witness for C4 at a concrete unknown make/model. -/
theorem C4_no_match_default_witness :
    valuation fallbackCatalog ⟨2024, 6, 1⟩ ⟨"Ford", "F-150", 50000, "2020-06-01"⟩ =
      some ⟨10000, some 0.5⟩ :=
  C4_no_match_default _ _ _ rfl

/-- C3: the catalog builder is a total function (it never raises to its
caller), and when the normalized table has neither the canonical columns nor
the transactional columns it returns the fixed built-in catalog of exactly
the five named archetypes, hence a non-empty, usable catalog. -/
theorem C3_unrecognized_schema_fallback (t : RawTable)
    (hc : hasCols (normTable t) canonicalCols = false)
    (ht : hasCols (normTable t) transactionalCols = false) :
    loadDataset t = fallbackCatalog ∧
    fallbackCatalog.map (fun a => (a.make, a.model)) =
      [("tesla", "model 3"), ("tesla", "model y"), ("nissan", "leaf"),
       ("volkswagen", "id.3"), ("volkswagen", "id.4")] ∧
    fallbackCatalog.length = 5 ∧
    loadDataset t ≠ [] := by
  have h1 : loadDataset t = fallbackCatalog := by
    simp [loadDataset, hc, ht]
  refine ⟨h1, rfl, rfl, ?_⟩
  rw [h1]
  simp [fallbackCatalog]

/-- Witness for C3 at a concrete unrecognized table. -/
theorem C3_unrecognized_schema_fallback_witness :
    loadDataset ⟨["foo"], []⟩ = fallbackCatalog ∧
    fallbackCatalog.map (fun a => (a.make, a.model)) =
      [("tesla", "model 3"), ("tesla", "model y"), ("nissan", "leaf"),
       ("volkswagen", "id.3"), ("volkswagen", "id.4")] ∧
    fallbackCatalog.length = 5 ∧
    loadDataset ⟨["foo"], []⟩ ≠ [] :=
  C3_unrecognized_schema_fallback ⟨["foo"], []⟩ rfl rfl

/-- C9: two requests whose make and model agree up to the normalization the
code applies (strip + lower-case, hence in particular differing only in
leading/trailing whitespace or letter case) and agree on the other fields
receive identical responses at a fixed evaluation instant. -/
theorem C9_case_whitespace_insensitive (cat : List Archetype) (now : SimpleDate)
    (r1 r2 : ValuationRequest)
    (hmk : normStr r1.make = normStr r2.make)
    (hmd : normStr r1.model = normStr r2.model)
    (hmi : r1.mileageKm = r2.mileageKm)
    (hfr : r1.firstRegistration = r2.firstRegistration) :
    valuation cat now r1 = valuation cat now r2 := by
  unfold valuation
  rw [hmk, hmd, hmi, hfr]

/-- Witness for C9: `" Tesla "` versus `"tesla"` (and `" Model 3 "` versus
`"model 3"`) yield the same response. -/
theorem C9_case_whitespace_insensitive_witness :
    valuation fallbackCatalog ⟨2024, 6, 1⟩ ⟨" Tesla ", " Model 3 ", 45000, "2020-06-01"⟩ =
    valuation fallbackCatalog ⟨2024, 6, 1⟩ ⟨"tesla", "model 3", 45000, "2020-06-01"⟩ :=
  C9_case_whitespace_insensitive _ _ _ _ rfl rfl rfl rfl

/-- C10: the clamp helper satisfies `clamp(v, lo, hi) = max(lo, min(hi, v))`,
so when `lo > hi` it returns `lo` regardless of `v`; consequently, for a
matched archetype with negative `basePrice` the pre-rounding estimate equals
`0.8 × 0.35 × basePrice`, which is negative. -/
theorem C10_clamp_shape_negative_price :
    (∀ v lo hi : ℝ, clamp v lo hi = max lo (min hi v)) ∧
    (∀ v lo hi : ℝ, hi < lo → clamp v lo hi = lo) ∧
    (∀ (bp years : ℚ) (m : ℕ), bp < 0 →
      estimateOf ((bp : ℝ)) years m = 0.8 * (0.35 * (bp : ℝ)) ∧
      estimateOf ((bp : ℝ)) years m < 0) := by
  refine ⟨fun v lo hi => rfl, fun v lo hi h => clamp_of_hi_lt_lo h, fun bp years m h => ?_⟩
  have hbp : (bp : ℝ) < 0 := by exact_mod_cast h
  have hlt : (bp : ℝ) * 1.05 < (bp : ℝ) * MIN_RETENTION * 0.8 := by
    unfold MIN_RETENTION
    nlinarith
  have he : estimateOf ((bp : ℝ)) years m = 0.8 * (0.35 * (bp : ℝ)) := by
    unfold estimateOf
    rw [clamp_of_hi_lt_lo hlt]
    unfold MIN_RETENTION
    ring
  exact ⟨he, by rw [he]; nlinarith⟩

/-- Witness for C10 at concrete inputs. -/
theorem C10_clamp_shape_negative_price_witness :
    clamp 0 1 0 = 1 ∧
    (estimateOf (((-100 : ℚ) : ℝ)) 0 5 = 0.8 * (0.35 * ((-100 : ℚ) : ℝ)) ∧
     estimateOf (((-100 : ℚ) : ℝ)) 0 5 < 0) :=
  ⟨C10_clamp_shape_negative_price.2.1 0 1 0 (by norm_num),
   C10_clamp_shape_negative_price.2.2 (-100) 0 5 (by norm_num)⟩

/-- C1: at a request whose `firstRegistration` is unparseable, the handler
returns successfully when no archetype matches, but when an archetype
matches it raises an uncaught `ValueError` (modelled as `none`) from the
unguarded `datetime.fromisoformat` call on the `year_gap` line — the code
contradicts the claim on the matched-archetype half. -/
theorem C1_unparseable_date_behavior :
    valuation fallbackCatalog ⟨2024, 6, 1⟩ ⟨"Tesla", "Model 3", 0, "not-a-date"⟩ = none ∧
    valuation fallbackCatalog ⟨2024, 6, 1⟩ ⟨"Wuling", "Mini EV", 0, "not-a-date"⟩ =
      some ⟨10000, some 0.5⟩ :=
  ⟨rfl, rfl⟩

theorem insertKey_perm (a : String × String) (l : List (String × String)) :
    List.Perm (insertKey a l) (a :: l) := by
  induction l with
  | nil => exact List.Perm.refl _
  | cons b l ih =>
    simp only [insertKey]
    split
    · exact List.Perm.refl _
    · exact (ih.cons b).trans (List.Perm.swap a b l)

theorem sortKeys_perm (l : List (String × String)) : List.Perm (sortKeys l) l := by
  induction l with
  | nil => exact List.Perm.refl _
  | cons a l ih => exact (insertKey_perm a (sortKeys l)).trans (ih.cons a)

theorem yearFactor_nonneg (y : ℚ) : 0 ≤ yearFactor y := by
  unfold yearFactor ANNUAL_DEPRECIATION
  exact Real.rpow_nonneg (by norm_num) _

set_option maxHeartbeats 1000000 in
/-- C7: with the catalog, the matched archetype (of positive base price), the
registration date and the evaluation instant fixed, the returned estimate is
monotonically non-increasing in `mileageKm`. -/
theorem C7_estimate_antitone_in_mileage (cat : List Archetype) (now : SimpleDate)
    (req : ValuationRequest) (m1 m2 : ℕ) (a : Archetype) (r1 r2 : ValuationResponse)
    (hm : findMatch cat (normStr req.make) (normStr req.model) = some a)
    (hbp : 0 < a.base_price)
    (hmm : m1 ≤ m2)
    (h1 : valuation cat now { req with mileageKm := m1 } = some r1)
    (h2 : valuation cat now { req with mileageKm := m2 } = some r2) :
    r2.estimate ≤ r1.estimate := by
  have hm1 : findMatch cat (normStr ({ req with mileageKm := m1 } : ValuationRequest).make)
      (normStr ({ req with mileageKm := m1 } : ValuationRequest).model) = some a := hm
  have hm2 : findMatch cat (normStr ({ req with mileageKm := m2 } : ValuationRequest).make)
      (normStr ({ req with mileageKm := m2 } : ValuationRequest).model) = some a := hm
  obtain ⟨d1, hp1, hr1⟩ := valuation_some_of_match hm1 h1
  obtain ⟨d2, hp2, hr2⟩ := valuation_some_of_match hm2 h2
  subst hr1
  subst hr2
  show round2 (estimateOf ((a.base_price : ℝ)) (yearsSince now req.firstRegistration) m2) ≤
    round2 (estimateOf ((a.base_price : ℝ)) (yearsSince now req.firstRegistration) m1)
  apply round2_mono
  unfold estimateOf
  apply clamp_mono_arg
  unfold rawEstimate
  have hyf : 0 ≤ yearFactor (yearsSince now req.firstRegistration) := yearFactor_nonneg _
  have hbp0 : 0 ≤ (a.base_price : ℝ) := by exact_mod_cast hbp.le
  have hmf : mileageFactor m2 ≤ mileageFactor m1 := by
    unfold mileageFactor PER_10K_DEPRECIATION MILEAGE_BUCKET
    have hmc : (m1 : ℝ) ≤ (m2 : ℝ) := by exact_mod_cast hmm
    have hd : (m1 : ℝ) / 10000 ≤ (m2 : ℝ) / 10000 := by linarith
    linarith
  exact mul_le_mul_of_nonneg_left hmf (mul_nonneg hbp0 hyf)

set_option maxHeartbeats 1000000 in
/-- Witness for C7 at a concrete catalog, archetype, date and mileage pair. -/
theorem C7_estimate_antitone_in_mileage_witness :
    round2 (estimateOf (((28000 : ℚ) : ℝ)) (yearsSince ⟨2024, 6, 1⟩ "2020-06-01") 10000) ≤
    round2 (estimateOf (((28000 : ℚ) : ℝ)) (yearsSince ⟨2024, 6, 1⟩ "2020-06-01") 0) :=
  C7_estimate_antitone_in_mileage fallbackCatalog ⟨2024, 6, 1⟩
    ⟨"Tesla", "Model 3", 7, "2020-06-01"⟩ 0 10000 ⟨"tesla", "model 3", 28000, 2019⟩
    ⟨round2 (estimateOf (((28000 : ℚ) : ℝ)) (yearsSince ⟨2024, 6, 1⟩ "2020-06-01") 0),
     some (round2 (confidenceOf (|(2020 : ℤ) - ratTrunc 2019|) 0))⟩
    ⟨round2 (estimateOf (((28000 : ℚ) : ℝ)) (yearsSince ⟨2024, 6, 1⟩ "2020-06-01") 10000),
     some (round2 (confidenceOf (|(2020 : ℤ) - ratTrunc 2019|) 10000))⟩
    rfl (by norm_num) (by norm_num)
    (valuation_eval fallbackCatalog ⟨2024, 6, 1⟩ ⟨"Tesla", "Model 3", 0, "2020-06-01"⟩
      ⟨"tesla", "model 3", 28000, 2019⟩ ⟨2020, 6, 1⟩ rfl rfl)
    (valuation_eval fallbackCatalog ⟨2024, 6, 1⟩ ⟨"Tesla", "Model 3", 10000, "2020-06-01"⟩
      ⟨"tesla", "model 3", 28000, 2019⟩ ⟨2020, 6, 1⟩ rfl rfl)

theorem ratTrunc_of_den_one {q : ℚ} (h : q.den = 1) : ratTrunc q = q.num := by
  have hq : ((q.num : ℚ)) = q := Rat.coe_int_num_of_den_eq_one h
  unfold ratTrunc
  split_ifs with h0
  · conv_lhs => rw [← hq]
    exact Int.floor_intCast _
  · conv_lhs => rw [← hq]
    exact Int.ceil_intCast _

theorem round2_half : round2 (0.5 : ℝ) = 0.5 := by
  rw [round2_eq_of_intCast (show (0.5 : ℝ) * 100 = ((50 : ℤ) : ℝ) by norm_num)]
  norm_num

theorem round2_ninety : round2 (0.9 : ℝ) = 0.9 := by
  rw [round2_eq_of_intCast (show (0.9 : ℝ) * 100 = ((90 : ℤ) : ℝ) by norm_num)]
  norm_num

/-- C8: when an archetype matches, its `year0` is an integer (as the data
model requires) and the registration date parses, the returned confidence is
exactly `clamp(0.9 − |registrationYear − year0| × 0.06 − min(0.5, mileageKm /
200000), 0.5, 0.9)` rounded to 2 decimal places, and that value lies in
`[0.5, 0.9]`. -/
theorem C8_confidence_formula (cat : List Archetype) (now : SimpleDate)
    (req : ValuationRequest) (a : Archetype) (d : SimpleDate) (r : ValuationResponse)
    (hm : findMatch cat (normStr req.make) (normStr req.model) = some a)
    (hp : parseISO req.firstRegistration = some d)
    (hden : a.year0.den = 1)
    (hv : valuation cat now req = some r) :
    r.confidence = some (round2 (clamp (0.9 - |((d.year : ℝ)) - ((a.year0 : ℚ) : ℝ)| * 0.06 -
        min 0.5 ((req.mileageKm : ℝ) / 200000)) 0.5 0.9)) ∧
    (0.5 : ℝ) ≤ round2 (clamp (0.9 - |((d.year : ℝ)) - ((a.year0 : ℚ) : ℝ)| * 0.06 -
        min 0.5 ((req.mileageKm : ℝ) / 200000)) 0.5 0.9) ∧
    round2 (clamp (0.9 - |((d.year : ℝ)) - ((a.year0 : ℚ) : ℝ)| * 0.06 -
        min 0.5 ((req.mileageKm : ℝ) / 200000)) 0.5 0.9) ≤ 0.9 := by
  obtain ⟨d', hp', hr⟩ := valuation_some_of_match hm hv
  rw [hp] at hp'
  have hdd : d = d' := Option.some.inj hp'
  subst hdd
  subst hr
  have hgap : ((|(d.year : ℤ) - ratTrunc a.year0| : ℤ) : ℝ) =
      |((d.year : ℝ)) - ((a.year0 : ℚ) : ℝ)| := by
    rw [ratTrunc_of_den_one hden]
    have hnum : ((a.year0.num : ℝ)) = ((a.year0 : ℚ) : ℝ) := by
      conv_rhs => rw [← Rat.coe_int_num_of_den_eq_one hden]
      push_cast
      ring
    rw [← hnum]
    push_cast
    ring_nf
  have hcf : confidenceOf (|(d.year : ℤ) - ratTrunc a.year0|) req.mileageKm =
      clamp (0.9 - |((d.year : ℝ)) - ((a.year0 : ℚ) : ℝ)| * 0.06 -
        min 0.5 ((req.mileageKm : ℝ) / 200000)) 0.5 0.9 := by
    unfold confidenceOf
    rw [hgap]
  refine ⟨?_, ?_, ?_⟩
  · show some (round2 (confidenceOf (|(d.year : ℤ) - ratTrunc a.year0|) req.mileageKm)) = _
    rw [hcf]
  · calc (0.5 : ℝ) = round2 0.5 := round2_half.symm
    _ ≤ _ := round2_mono (le_clamp _ _ _)
  · calc round2 (clamp (0.9 - |((d.year : ℝ)) - ((a.year0 : ℚ) : ℝ)| * 0.06 -
          min 0.5 ((req.mileageKm : ℝ) / 200000)) 0.5 0.9) ≤ round2 0.9 :=
        round2_mono (clamp_le_right _ (by norm_num))
    _ = 0.9 := round2_ninety

/-- Witness for C8 at a concrete matched request. -/
theorem C8_confidence_formula_witness :
    (some (round2 (confidenceOf (|(2020 : ℤ) - ratTrunc 2019|) 45000)) : Option ℝ) =
      some (round2 (clamp (0.9 - |(((2020 : ℕ) : ℝ)) - (((2019 : ℚ)) : ℝ)| * 0.06 -
        min 0.5 (((45000 : ℕ) : ℝ) / 200000)) 0.5 0.9)) ∧
    (0.5 : ℝ) ≤ round2 (clamp (0.9 - |(((2020 : ℕ) : ℝ)) - (((2019 : ℚ)) : ℝ)| * 0.06 -
        min 0.5 (((45000 : ℕ) : ℝ) / 200000)) 0.5 0.9) ∧
    round2 (clamp (0.9 - |(((2020 : ℕ) : ℝ)) - (((2019 : ℚ)) : ℝ)| * 0.06 -
        min 0.5 (((45000 : ℕ) : ℝ) / 200000)) 0.5 0.9) ≤ 0.9 :=
  C8_confidence_formula fallbackCatalog ⟨2024, 6, 1⟩
    ⟨"Tesla", "Model 3", 45000, "2020-06-01"⟩ ⟨"tesla", "model 3", 28000, 2019⟩
    ⟨2020, 6, 1⟩
    ⟨round2 (estimateOf (((28000 : ℚ) : ℝ)) (yearsSince ⟨2024, 6, 1⟩ "2020-06-01") 45000),
     some (round2 (confidenceOf (|(2020 : ℤ) - ratTrunc 2019|) 45000))⟩
    rfl rfl rfl
    (valuation_eval fallbackCatalog ⟨2024, 6, 1⟩ ⟨"Tesla", "Model 3", 45000, "2020-06-01"⟩
      ⟨"tesla", "model 3", 28000, 2019⟩ ⟨2020, 6, 1⟩ rfl rfl)

theorem yearFactor_zero : yearFactor 0 = 1 := by
  unfold yearFactor
  rw [show (((0 : ℚ)) : ℝ) = (0 : ℝ) by norm_num, Real.rpow_zero]

/-- C2, amended: on the no-match path the returned estimate is `10000 ≥ 0`;
on a matched path with non-negative base price, the pre-rounding estimate
lies in `[0.8 × 0.35 × basePrice, 1.05 × basePrice]`, the returned estimate
is that value rounded to 2 decimals — hence non-negative and within half a
cent (`0.005`) of the interval. -/
theorem C2_estimate_bounds_amended :
    (∀ (cat : List Archetype) (now : SimpleDate) (req : ValuationRequest)
       (r : ValuationResponse),
       findMatch cat (normStr req.make) (normStr req.model) = none →
       valuation cat now req = some r → 0 ≤ r.estimate) ∧
    (∀ (cat : List Archetype) (now : SimpleDate) (req : ValuationRequest)
       (a : Archetype) (r : ValuationResponse),
       findMatch cat (normStr req.make) (normStr req.model) = some a →
       0 ≤ a.base_price →
       valuation cat now req = some r →
       0 ≤ r.estimate ∧
       (a.base_price : ℝ) * MIN_RETENTION * 0.8 ≤
         estimateOf ((a.base_price : ℝ)) (yearsSince now req.firstRegistration) req.mileageKm ∧
       estimateOf ((a.base_price : ℝ)) (yearsSince now req.firstRegistration) req.mileageKm ≤
         (a.base_price : ℝ) * 1.05 ∧
       (a.base_price : ℝ) * MIN_RETENTION * 0.8 - 1/200 ≤ r.estimate ∧
       r.estimate ≤ (a.base_price : ℝ) * 1.05 + 1/200) := by
  constructor
  · intro cat now req r hm hv
    rw [valuation_eval_noMatch cat now req hm] at hv
    obtain rfl := Option.some.inj hv
    show (0 : ℝ) ≤ 10000
    norm_num
  · intro cat now req a r hm hbp hv
    obtain ⟨d, hp, rfl⟩ := valuation_some_of_match hm hv
    have hbp0 : 0 ≤ (a.base_price : ℝ) := by exact_mod_cast hbp
    have hlo0 : 0 ≤ (a.base_price : ℝ) * MIN_RETENTION * 0.8 := by
      unfold MIN_RETENTION
      nlinarith
    have hlohi : (a.base_price : ℝ) * MIN_RETENTION * 0.8 ≤ (a.base_price : ℝ) * 1.05 := by
      unfold MIN_RETENTION
      nlinarith
    have h1 : (a.base_price : ℝ) * MIN_RETENTION * 0.8 ≤
        estimateOf ((a.base_price : ℝ)) (yearsSince now req.firstRegistration) req.mileageKm :=
      le_clamp _ _ _
    have h2 : estimateOf ((a.base_price : ℝ)) (yearsSince now req.firstRegistration)
        req.mileageKm ≤ (a.base_price : ℝ) * 1.05 :=
      clamp_le_right _ hlohi
    have hrd1 := sub_le_round2 (estimateOf ((a.base_price : ℝ))
      (yearsSince now req.firstRegistration) req.mileageKm)
    have hrd2 := round2_le_add (estimateOf ((a.base_price : ℝ))
      (yearsSince now req.firstRegistration) req.mileageKm)
    refine ⟨?_, h1, h2, ?_, ?_⟩
    · show 0 ≤ round2 (estimateOf ((a.base_price : ℝ))
        (yearsSince now req.firstRegistration) req.mileageKm)
      exact round2_nonneg (le_trans hlo0 h1)
    · show (a.base_price : ℝ) * MIN_RETENTION * 0.8 - 1/200 ≤ round2 (estimateOf
        ((a.base_price : ℝ)) (yearsSince now req.firstRegistration) req.mileageKm)
      linarith
    · show round2 (estimateOf ((a.base_price : ℝ))
        (yearsSince now req.firstRegistration) req.mileageKm) ≤ (a.base_price : ℝ) * 1.05 + 1/200
      linarith

/-- Witness for the amended C2 at a concrete matched request. -/
theorem C2_estimate_bounds_amended_witness :
    0 ≤ round2 (estimateOf (((28000 : ℚ) : ℝ)) (yearsSince ⟨2019, 6, 1⟩ "2019-06-01") 0) ∧
    ((28000 : ℚ) : ℝ) * MIN_RETENTION * 0.8 ≤
      estimateOf (((28000 : ℚ) : ℝ)) (yearsSince ⟨2019, 6, 1⟩ "2019-06-01") 0 ∧
    estimateOf (((28000 : ℚ) : ℝ)) (yearsSince ⟨2019, 6, 1⟩ "2019-06-01") 0 ≤
      ((28000 : ℚ) : ℝ) * 1.05 ∧
    ((28000 : ℚ) : ℝ) * MIN_RETENTION * 0.8 - 1/200 ≤
      round2 (estimateOf (((28000 : ℚ) : ℝ)) (yearsSince ⟨2019, 6, 1⟩ "2019-06-01") 0) ∧
    round2 (estimateOf (((28000 : ℚ) : ℝ)) (yearsSince ⟨2019, 6, 1⟩ "2019-06-01") 0) ≤
      ((28000 : ℚ) : ℝ) * 1.05 + 1/200 :=
  C2_estimate_bounds_amended.2 fallbackCatalog ⟨2019, 6, 1⟩
    ⟨"Tesla", "Model 3", 0, "2019-06-01"⟩ ⟨"tesla", "model 3", 28000, 2019⟩
    ⟨round2 (estimateOf (((28000 : ℚ) : ℝ)) (yearsSince ⟨2019, 6, 1⟩ "2019-06-01") 0),
     some (round2 (confidenceOf (|(2019 : ℤ) - ratTrunc 2019|) 0))⟩
    rfl (by norm_num)
    (valuation_eval fallbackCatalog ⟨2019, 6, 1⟩ ⟨"Tesla", "Model 3", 0, "2019-06-01"⟩
      ⟨"tesla", "model 3", 28000, 2019⟩ ⟨2019, 6, 1⟩ rfl rfl)

/-- C2, counterexample: the claim as stated fails on the code.  (i) With a
matched archetype of negative base price (the builder passes non-positive
prices through unchecked), the returned estimate is negative, refuting
"the returned estimate is ≥ 0 for every valid request".  (ii) With a matched
archetype of tiny positive base price and extreme mileage, the *returned*
(2-decimal-rounded) estimate falls strictly below `0.8 × 0.35 × basePrice`,
refuting the claimed closed-interval containment of the returned value. -/
theorem C2_estimate_bounds_counterexample :
    (valuation [⟨"a", "b", -100, 2020⟩] ⟨2020, 1, 1⟩ ⟨"a", "b", 0, "2020-01-01"⟩ =
       some ⟨round2 (estimateOf (((-100 : ℚ) : ℝ)) (yearsSince ⟨2020, 1, 1⟩ "2020-01-01") 0),
             some (round2 (confidenceOf (|(2020 : ℤ) - ratTrunc 2020|) 0))⟩ ∧
     round2 (estimateOf (((-100 : ℚ) : ℝ)) (yearsSince ⟨2020, 1, 1⟩ "2020-01-01") 0) < 0) ∧
    (valuation [⟨"a", "b", 1/250, 2020⟩] ⟨2020, 1, 1⟩ ⟨"a", "b", 1000000, "2020-01-01"⟩ =
       some ⟨round2 (estimateOf (((1/250 : ℚ) : ℝ)) (yearsSince ⟨2020, 1, 1⟩ "2020-01-01")
               1000000),
             some (round2 (confidenceOf (|(2020 : ℤ) - ratTrunc 2020|) 1000000))⟩ ∧
     round2 (estimateOf (((1/250 : ℚ) : ℝ)) (yearsSince ⟨2020, 1, 1⟩ "2020-01-01") 1000000) <
       0.8 * (0.35 * ((1/250 : ℚ) : ℝ))) := by
  have hy : yearsSince ⟨2020, 1, 1⟩ "2020-01-01" = 0 := by
    have hp : parseISO "2020-01-01" = some ⟨2020, 1, 1⟩ := rfl
    unfold yearsSince
    rw [hp]
    norm_num
  constructor
  · refine ⟨valuation_eval [⟨"a", "b", -100, 2020⟩] ⟨2020, 1, 1⟩ ⟨"a", "b", 0, "2020-01-01"⟩
      ⟨"a", "b", -100, 2020⟩ ⟨2020, 1, 1⟩ rfl rfl, ?_⟩
    rw [hy]
    have hc : (((-100 : ℚ)) : ℝ) = -100 := by norm_num
    have hraw : rawEstimate (((-100 : ℚ) : ℝ)) 0 0 = -100 := by
      unfold rawEstimate mileageFactor PER_10K_DEPRECIATION MILEAGE_BUCKET
      rw [yearFactor_zero, hc]
      push_cast
      ring
    have hest : estimateOf (((-100 : ℚ) : ℝ)) 0 0 = -28 := by
      unfold estimateOf clamp MIN_RETENTION
      rw [hraw, hc]
      rw [min_eq_left (by norm_num : (-100 : ℝ) * 1.05 ≤ -100)]
      rw [max_eq_left (by norm_num : (-100 : ℝ) * 1.05 ≤ -100 * 0.35 * 0.8)]
      norm_num
    rw [hest]
    rw [round2_eq_of_intCast (show (-28 : ℝ) * 100 = ((-2800 : ℤ) : ℝ) by norm_num)]
    norm_num
  · refine ⟨valuation_eval [⟨"a", "b", 1/250, 2020⟩] ⟨2020, 1, 1⟩
      ⟨"a", "b", 1000000, "2020-01-01"⟩ ⟨"a", "b", 1/250, 2020⟩ ⟨2020, 1, 1⟩ rfl rfl, ?_⟩
    rw [hy]
    have hcB : (((1/250 : ℚ)) : ℝ) = 1/250 := by norm_num
    have hrawB : rawEstimate (((1/250 : ℚ) : ℝ)) 0 1000000 = -(1/500) := by
      unfold rawEstimate mileageFactor PER_10K_DEPRECIATION MILEAGE_BUCKET
      rw [yearFactor_zero, hcB]
      push_cast
      ring
    have hestB : estimateOf (((1/250 : ℚ) : ℝ)) 0 1000000 =
        ((1/250 : ℚ) : ℝ) * MIN_RETENTION * 0.8 := by
      unfold estimateOf clamp
      rw [hrawB]
      rw [min_eq_right (by rw [hcB]; norm_num : (-(1/500) : ℝ) ≤ ((1/250 : ℚ) : ℝ) * 1.05)]
      rw [max_eq_left (by rw [hcB]; unfold MIN_RETENTION; norm_num :
        (-(1/500) : ℝ) ≤ ((1/250 : ℚ) : ℝ) * MIN_RETENTION * 0.8)]
    have hroundB : round2 (((1/250 : ℚ) : ℝ) * MIN_RETENTION * 0.8) = 0 := by
      unfold round2
      rw [show ((1/250 : ℚ) : ℝ) * MIN_RETENTION * 0.8 * 100 = 0.112 by
        rw [hcB]; unfold MIN_RETENTION; norm_num]
      unfold roundHalfEven
      rw [show ⌊(0.112 : ℝ)⌋ = 0 by norm_num]
      norm_num
    rw [hestB, hroundB, hcB]
    norm_num

/-- C5: for a table with the transactional columns but not the canonical
ones, the built catalog has exactly one row per distinct normalized
`(make, model)` group of the input, with `base_price` the median of the
group's `price` values and `year0` the median of its `registration_year`
values when that column exists, else the constant `2020`. -/
theorem C5_transactional_median_aggregation (t : RawTable)
    (hc : hasCols (normTable t) canonicalCols = false)
    (ht : hasCols (normTable t) transactionalCols = true) :
    (∀ a ∈ loadDataset t,
       a.base_price = median ((groupRows (normTable t) (a.make, a.model)).map
         (fun r => getNum r "price")) ∧
       a.year0 = (if (normTable t).cols.contains "registration_year" = true then
           median ((groupRows (normTable t) (a.make, a.model)).map
             (fun r => getNum r "registration_year"))
         else 2020)) ∧
    ((loadDataset t).map (fun a => (a.make, a.model))).Nodup ∧
    (∀ k : String × String, k ∈ (loadDataset t).map (fun a => (a.make, a.model)) ↔
       k ∈ (normTable t).rows.map rowKey) := by
  have hld : loadDataset t =
      (sortKeys (((normTable t).rows.map rowKey).dedup)).map (aggRow (normTable t)) := by
    simp [loadDataset, hc, ht]
  have hcomp : ((fun a : Archetype => (a.make, a.model)) ∘ aggRow (normTable t)) = id :=
    funext fun k => rfl
  refine ⟨?_, ?_, ?_⟩
  · intro a ha
    rw [hld] at ha
    obtain ⟨k, hk, rfl⟩ := List.mem_map.mp ha
    constructor
    · simp [aggRow]
    · simp [aggRow]
  · rw [hld, List.map_map, hcomp, List.map_id]
    exact ((sortKeys_perm _).nodup_iff).mpr (List.nodup_dedup _)
  · intro k
    rw [hld, List.map_map, hcomp, List.map_id]
    rw [(sortKeys_perm _).mem_iff]
    exact List.mem_dedup

/-- Witness for C5 on the concrete sample transactional table (three rows,
one normalized group, median of `[10, 30, 20]` = `20`, no
`registration_year` column so `year0 = 2020`). -/
theorem C5_transactional_median_aggregation_witness :
    ((⟨"a", "x", 20, 2020⟩ : Archetype).base_price =
       median ((groupRows (normTable sampleTransactional)
         ((⟨"a", "x", 20, 2020⟩ : Archetype).make,
          (⟨"a", "x", 20, 2020⟩ : Archetype).model)).map (fun r => getNum r "price")) ∧
     (⟨"a", "x", 20, 2020⟩ : Archetype).year0 =
       (if (normTable sampleTransactional).cols.contains "registration_year" = true then
          median ((groupRows (normTable sampleTransactional)
            ((⟨"a", "x", 20, 2020⟩ : Archetype).make,
             (⟨"a", "x", 20, 2020⟩ : Archetype).model)).map
              (fun r => getNum r "registration_year"))
        else 2020)) ∧
    (("a", "x") ∈ (loadDataset sampleTransactional).map (fun a => (a.make, a.model)) ↔
      ("a", "x") ∈ (normTable sampleTransactional).rows.map rowKey) :=
  ⟨(C5_transactional_median_aggregation sampleTransactional rfl rfl).1
      ⟨"a", "x", 20, 2020⟩ (by decide),
   (C5_transactional_median_aggregation sampleTransactional rfl rfl).2.2 ("a", "x")⟩
